import Mathlib

set_option maxHeartbeats 1000000
set_option maxRecDepth 100000

/-!
Shallow embedding of the SmartSaver interest calculator and optimizers
(`Calculator.py`).  Money amounts and interest rates are represented as exact
rationals (`ℚ`); the percentage strings of the CSV are represented by the
numeric percentage value they parse to (`interest_rate` holds the number that
`float(str(x).strip('%'))` produces).  Python's `StopIteration` (raised by
`next(...)` on an exhausted generator) is modelled by `Except CalcError`.
-/

/-- A row of the tier table, as produced by `process_interest_rates`. -/
structure Tier where
  tier_type : String
  balance_tier : String
  /-- the numeric percentage value, e.g. `0.05` for the string "0.05%" -/
  interest_rate : ℚ
  requirement_type : String
  min_spend : ℚ
  min_salary : ℚ
  cap_amount : ℚ
  remarks : String
deriving DecidableEq, Repr

/-- One entry of `banks_data`: the bank name and its tier rows. -/
structure BankInfo where
  bank : String
  tiers : List Tier
deriving DecidableEq, Repr

/-- The requirements record (`base_requirements` in the source); absent
dictionary keys default to `false`/`0`, so all fields are total here. -/
structure Requirements where
  has_salary : Bool
  salary_amount : ℚ
  spend_amount : ℚ
  giro_count : ℕ
  has_insurance : Bool
  insurance_amount : ℚ
  has_investments : Bool
  investment_amount : ℚ
  has_home_loan : Bool
  home_loan_amount : ℚ
  increased_balance : Bool
  grew_wealth : Bool
deriving DecidableEq, Repr

/-- One breakdown entry, as appended by `add_tier`. -/
structure TierApp where
  amount_in_tier : ℚ
  tier_rate : ℚ
  tier_interest : ℚ
  monthly_interest : ℚ
  description : String
deriving DecidableEq, Repr

/-- The dictionary returned by `calculate_bank_interest`. -/
structure CalculationResult where
  total_interest : ℚ
  breakdown : List TierApp
deriving DecidableEq, Repr

/-- The one kind of exception the calculator can raise: `StopIteration`
escaping from a `next(...)` call on an empty match. -/
inductive CalcError where
  | stopIteration
deriving DecidableEq, Repr

/-- `add_tier`'s record: `tier_interest = amount × rate`,
`monthly_interest = tier_interest / 12`. -/
def mkTierApp (amount rate : ℚ) (desc : String) : TierApp :=
  { amount_in_tier := amount
    tier_rate := rate
    tier_interest := amount * rate
    monthly_interest := amount * rate / 12
    description := desc }

/-- The `total_interest += add_tier(amount, rate, desc)` idiom: extend the
running `(total, breakdown)` accumulator by one tier. -/
def addTier (acc : ℚ × List TierApp) (amount rate : ℚ) (desc : String) :
    ℚ × List TierApp :=
  (acc.1 + amount * rate, acc.2 ++ [mkTierApp amount rate desc])

/-- `next(t for t in ts if p t)`: the first match, or `StopIteration`. -/
def pyNext (p : Tier → Bool) (ts : List Tier) : Except CalcError Tier :=
  match ts.find? p with
  | some t => .ok t
  | none => .error .stopIteration

/-- `float(str(tier['interest_rate']).strip('%')) / 100`. -/
def tierRate (t : Tier) : ℚ := t.interest_rate / 100

/-- Sum of `tier_interest` over a breakdown. -/
def sumInterest (l : List TierApp) : ℚ := (l.map (fun e => e.tier_interest)).sum

/-- Equality of `Except` values is decidable when both components are;
needed to evaluate concrete runs inside proofs. -/
def exceptDecEq {ε α : Type} [DecidableEq ε] [DecidableEq α] :
    DecidableEq (Except ε α) := fun a b =>
  match a, b with
  | .error e1, .error e2 =>
    if h : e1 = e2 then isTrue (by rw [h]) else
      isFalse (by intro hh; cases hh; exact h rfl)
  | .error _, .ok _ => isFalse (by intro h; cases h)
  | .ok _, .error _ => isFalse (by intro h; cases h)
  | .ok x, .ok y =>
    if h : x = y then isTrue (by rw [h]) else
      isFalse (by intro hh; cases hh; exact h rfl)

instance {ε α : Type} [DecidableEq ε] [DecidableEq α] : DecidableEq (Except ε α) :=
  exceptDecEq

/-- The repeated bonus-block pattern of the source: when `cond` holds, look up
one tier with `next(...)` (which may raise) and append one bonus entry whose
amount and description may depend on the tier found. -/
def condBonusTier (cond : Bool) (p : Tier → Bool) (ts : List Tier)
    (amtOf : Tier → ℚ) (descOf : Tier → String) (acc : ℚ × List TierApp) :
    Except CalcError (ℚ × List TierApp) :=
  if cond then
    match pyNext p ts with
    | .error e => .error e
    | .ok t => .ok (addTier acc (amtOf t) (tierRate t) (descOf t))
  else .ok acc

/-- `Calculator.py` lines 43-78: the SC BonusSaver branch. -/
def calcSCBonusSaver (deposit : ℚ) (info : BankInfo) (reqs : Requirements) :
    Except CalcError (ℚ × List TierApp) :=
  match pyNext (fun t => t.tier_type == "salary") info.tiers with
  | .error e => .error e
  | .ok salary_tier =>
    match pyNext (fun t => t.tier_type == "spend") info.tiers with
    | .error e => .error e
    | .ok spend_tier =>
      match pyNext (fun t => t.tier_type == "base") info.tiers with
      | .error e => .error e
      | .ok base_tier =>
        let min_salary := salary_tier.min_salary
        let min_spend := spend_tier.min_spend
        let acc := addTier (0, []) deposit (tierRate base_tier) "Base Interest"
        let eligible := min deposit 100000
        let acc :=
          if reqs.has_salary && decide (reqs.salary_amount ≥ min_salary) then
            addTier acc eligible (tierRate salary_tier) "Salary Credit Bonus"
          else acc
        let acc :=
          if reqs.spend_amount ≥ min_spend then
            addTier acc eligible (tierRate spend_tier) "Card Spend Bonus"
          else acc
        match condBonusTier reqs.has_investments (fun t => t.tier_type == "invest")
            info.tiers (fun _ => eligible) (fun _ => "Investment Bonus (6 months)") acc with
        | .error e => .error e
        | .ok acc2 =>
          condBonusTier reqs.has_insurance (fun t => t.tier_type == "insure")
            info.tiers (fun _ => eligible) (fun _ => "Insurance Bonus (6 months)") acc2

/-- One UOB One bonus ladder (lines 95-133): consume tiers in order, each
taking `min(remaining, cap)` of the deposit, stopping at the first empty one. -/
def uobLadder (tag : String) : List Tier → ℚ → ℚ × List TierApp
  | [], _ => (0, [])
  | t :: rest, remaining =>
    let amount_in_tier := min remaining t.cap_amount
    if amount_in_tier ≤ 0 then (0, [])
    else
      let res := uobLadder tag rest (remaining - amount_in_tier)
      (amount_in_tier * tierRate t + res.1,
        mkTierApp amount_in_tier (tierRate t)
          (tag ++ " (" ++ t.balance_tier ++ ")") :: res.2)

/-- `Calculator.py` lines 80-142: the UOB One branch. -/
def calcUOBOne (deposit : ℚ) (info : BankInfo) (reqs : Requirements) :
    Except CalcError (ℚ × List TierApp) :=
  let has_spend := decide (reqs.spend_amount ≥ 500)
  let has_salary := reqs.has_salary
  let has_giro := decide (reqs.giro_count ≥ 3)
  if has_spend then
    if has_salary then
      .ok (uobLadder "Salary + Spend"
        (info.tiers.filter (fun t => t.requirement_type == "salary")) deposit)
    else if has_giro then
      .ok (uobLadder "GIRO + Spend"
        (info.tiers.filter (fun t => t.requirement_type == "giro")) deposit)
    else
      .ok (uobLadder "Spend Only"
        (info.tiers.filter (fun t => t.requirement_type == "spend_only")) deposit)
  else
    match pyNext (fun t => t.tier_type == "base") info.tiers with
    | .error e => .error e
    | .ok base_tier =>
      let base_amount := min deposit base_tier.cap_amount
      .ok (addTier (0, []) base_amount (tierRate base_tier)
        ("Base Interest (" ++ base_tier.balance_tier ++ ")"))

/-- `process_ocbc_tier` (lines 159-175): for one bonus category, add the
75k-band and 25k-band entries when the requirement is met; returns the two
interest sums and the entries appended. -/
def processOcbcTier (info : BankInfo) (first_75k next_25k : ℚ)
    (tt : String) (met : Bool) : ℚ × ℚ × List TierApp :=
  if met then
    let tier_75k := info.tiers.find? (fun t => t.tier_type == tt && t.cap_amount == 75000)
    let tier_25k := info.tiers.find? (fun t => t.tier_type == tt && t.cap_amount == 25000)
    let part75 : ℚ × List TierApp :=
      match tier_75k with
      | some t => (first_75k * tierRate t, [mkTierApp first_75k (tierRate t) t.remarks])
      | none => (0, [])
    let part25 : ℚ × List TierApp :=
      match tier_25k with
      | some t => (next_25k * tierRate t, [mkTierApp next_25k (tierRate t) t.remarks])
      | none => (0, [])
    (part75.1, part25.1, part75.2 ++ part25.2)
  else (0, 0, [])

/-- `Calculator.py` lines 144-200: the OCBC 360 branch. -/
def calcOCBC360 (deposit : ℚ) (info : BankInfo) (reqs : Requirements) :
    Except CalcError (ℚ × List TierApp) :=
  match pyNext (fun t => t.tier_type == "base") info.tiers with
  | .error e => .error e
  | .ok base_tier =>
    let base_rate := tierRate base_tier
    let total := deposit * base_rate
    let breakdown := [mkTierApp deposit base_rate "Base Interest"]
    let first_75k := min deposit 75000
    let next_25k := min (max (deposit - 75000) 0) 25000
    match pyNext (fun t => t.tier_type == "salary") info.tiers with
    | .error e => .error e
    | .ok salary_tier =>
      let has_salary := reqs.has_salary && decide (reqs.salary_amount ≥ salary_tier.min_salary)
      let c1 := processOcbcTier info first_75k next_25k "salary" has_salary
      let c2 := processOcbcTier info first_75k next_25k "save" reqs.increased_balance
      match pyNext (fun t => t.tier_type == "spend") info.tiers with
      | .error e => .error e
      | .ok spend_tier =>
        let has_spend := decide (reqs.spend_amount ≥ spend_tier.min_spend)
        let c3 := processOcbcTier info first_75k next_25k "spend" has_spend
        let c4 := processOcbcTier info first_75k next_25k "insure" reqs.has_insurance
        let c5 := processOcbcTier info first_75k next_25k "invest" reqs.has_investments
        let c6 := processOcbcTier info first_75k next_25k "grow" reqs.grew_wealth
        let total_first_75k := c1.1 + c2.1 + c3.1 + c4.1 + c5.1 + c6.1
        let total_next_25k := c1.2.1 + c2.2.1 + c3.2.1 + c4.2.1 + c5.2.1 + c6.2.1
        .ok (total + (total_first_75k + total_next_25k),
          breakdown ++ c1.2.2 ++ c2.2.2 ++ c3.2.2 ++ c4.2.2 ++ c5.2.2 ++ c6.2.2)

/-- Stable insertion of one tier into a list already sorted by `cap_amount`
(the element goes after all existing elements with key `≤` its own, as
Python's stable `sorted` does). -/
def insertByCap (t : Tier) : List Tier → List Tier
  | [] => [t]
  | u :: us => if u.cap_amount ≤ t.cap_amount then u :: insertByCap t us else t :: u :: us

/-- `sorted(base_tiers, key=lambda x: float(x['cap_amount']))` — a stable
sort by `cap_amount`. -/
def sortByCap (ts : List Tier) : List Tier := ts.foldl (fun acc t => insertByCap t acc) []

/-- The BOC SmartSaver base loop (lines 213-226): ascending stacked bands,
`amount_in_tier = min(max(0, deposit − prev_cap), cap − prev_cap)`, stopping
at the first empty band. -/
def bocBaseLoop (deposit : ℚ) : List Tier → ℚ → ℚ × List TierApp
  | [], _ => (0, [])
  | t :: rest, prev_cap =>
    let cap := t.cap_amount
    let tier_size := cap - prev_cap
    let amount_in_tier := min (max 0 (deposit - prev_cap)) tier_size
    if amount_in_tier ≤ 0 then (0, [])
    else
      let res := bocBaseLoop deposit rest cap
      (amount_in_tier * tierRate t + res.1,
        mkTierApp amount_in_tier (tierRate t)
          ("Base Interest (" ++ t.balance_tier ++ ")") :: res.2)

/-- `Calculator.py` lines 202-273: the BOC SmartSaver branch. -/
def calcBOCSmartSaver (deposit : ℚ) (info : BankInfo) (reqs : Requirements) :
    Except CalcError (ℚ × List TierApp) :=
  let base_tiers := sortByCap (info.tiers.filter (fun t => t.tier_type == "base"))
  let acc := bocBaseLoop deposit base_tiers 0
  if deposit ≥ 1500 then
    match condBonusTier (reqs.has_salary && decide (reqs.salary_amount ≥ 2000))
        (fun t => t.tier_type == "salary") info.tiers
        (fun t => min deposit t.cap_amount)
        (fun _ => "Salary Credit Bonus (>= $2,000)") acc with
    | .error e => .error e
    | .ok acc1 =>
      match condBonusTier reqs.has_insurance
          (fun t => t.tier_type == "wealth") info.tiers
          (fun t => min deposit t.cap_amount)
          (fun _ => "Wealth Bonus (Insurance)") acc1 with
      | .error e => .error e
      | .ok acc2 =>
        match condBonusTier (decide (reqs.spend_amount ≥ 500))
            (fun t => t.balance_tier == (if reqs.spend_amount ≥ 1500 then "2" else "1"))
            (info.tiers.filter (fun t => t.tier_type == "spend"))
            (fun t => min deposit t.cap_amount)
            (fun _ => "Spend Bonus") acc2 with
        | .error e => .error e
        | .ok acc3 =>
          condBonusTier (decide (reqs.giro_count ≥ 3))
            (fun t => t.tier_type == "payment") info.tiers
            (fun t => min deposit t.cap_amount)
            (fun _ => "Payment Bonus") acc3
  else .ok acc

/-- `Calculator.py` lines 275-301: the Chocolate branch.  The initial
base-rate total is computed and then overwritten (override semantics); its
`add_tier` call is commented out in the source. -/
def calcChocolate (deposit : ℚ) (info : BankInfo) :
    Except CalcError (ℚ × List TierApp) :=
  match pyNext (fun t => t.tier_type == "base") info.tiers with
  | .error e => .error e
  | .ok _base_tier =>
    let first_20k := min deposit 20000
    match pyNext (fun t => t.tier_type == "base" && t.cap_amount == 20000) info.tiers with
    | .error e => .error e
    | .ok first_tier =>
      let rate_20k := tierRate first_tier
      let e1 := mkTierApp first_20k rate_20k "First $20,000"
      if deposit > 20000 then
        let next_30k := min (deposit - 20000) 30000
        match pyNext (fun t => t.tier_type == "base" && t.cap_amount == 30000) info.tiers with
        | .error e => .error e
        | .ok second_tier =>
          let rate_30k := tierRate second_tier
          let e2 := mkTierApp next_30k rate_30k "Next $30,000"
          .ok (first_20k * rate_20k + next_30k * rate_30k, [e1, e2])
      else .ok (first_20k * rate_20k, [e1])

/-- `calculate_dbs_eligible_transactions` (lines 1252-1275). -/
def calculate_dbs_eligible_transactions (reqs : Requirements) : ℚ :=
  (if reqs.has_salary then reqs.salary_amount else 0) +
  reqs.spend_amount +
  (if reqs.has_insurance then reqs.insurance_amount else 0) +
  (if reqs.has_investments then reqs.investment_amount else 0) +
  (if reqs.has_home_loan then reqs.home_loan_amount else 0)

/-- `count_dbs_categories` (lines 1277-1292). -/
def count_dbs_categories (reqs : Requirements) : ℕ :=
  (if reqs.spend_amount > 0 then 1 else 0) +
  (if reqs.has_insurance && decide (reqs.insurance_amount > 0) then 1 else 0) +
  (if reqs.has_investments && decide (reqs.investment_amount > 0) then 1 else 0) +
  (if reqs.has_home_loan && decide (reqs.home_loan_amount > 0) then 1 else 0)

/-- `Calculator.py` lines 303-356: the DBS Multiplier branch.  The flat base
rate 0.05% is `1/2000`; the tier lookup in step 5 is wrapped in
`try/except StopIteration` in the source, hence handled locally. -/
def calcDBSMultiplier (deposit : ℚ) (info : BankInfo) (reqs : Requirements) :
    Except CalcError (ℚ × List TierApp) :=
  if !reqs.has_salary then
    let e := mkTierApp deposit (1/2000) "Base Interest (No Salary Credit)"
    .ok (e.tier_interest, [e])
  else
    let total_transactions := calculate_dbs_eligible_transactions reqs
    let category_count := count_dbs_categories reqs
    if total_transactions < 500 ∨ category_count = 0 then
      let e := mkTierApp deposit (1/2000) "Base Interest (Min Transaction Not Met)"
      .ok (e.tier_interest, [e])
    else
      let tt := "cat" ++ toString category_count ++ "_" ++
        (if total_transactions ≥ 30000 then "high"
         else if total_transactions ≥ 15000 then "mid" else "low")
      match info.tiers.find? (fun t => t.tier_type == tt) with
      | some tier =>
        let rate := tierRate tier
        let cap_amount := tier.cap_amount
        let eligible := min deposit cap_amount
        let part1 : ℚ × List TierApp :=
          if eligible > 0 then
            (eligible * rate, [mkTierApp eligible rate "Bonus Interest"])
          else (0, [])
        let part2 : ℚ × List TierApp :=
          if deposit > cap_amount then
            (let remaining := deposit - cap_amount
             (remaining * (1/2000),
              [mkTierApp remaining (1/2000) "Base Interest (Amount Above Cap)"]))
          else (0, [])
        .ok (part1.1 + part2.1, part1.2 ++ part2.2)
      | none =>
        let e := mkTierApp deposit (1/2000) "Base Interest (No Matching Tier)"
        .ok (e.tier_interest, [e])

/-- `calculate_bank_interest` (lines 24-361): dispatch on the bank name; an
unrecognized bank returns zero interest and an empty breakdown. -/
def calculate_bank_interest (deposit : ℚ) (info : BankInfo) (reqs : Requirements) :
    Except CalcError CalculationResult :=
  let pack : Except CalcError (ℚ × List TierApp) → Except CalcError CalculationResult :=
    fun r => match r with
      | .error e => .error e
      | .ok acc => .ok { total_interest := acc.1, breakdown := acc.2 }
  if info.bank == "SC BonusSaver" then pack (calcSCBonusSaver deposit info reqs)
  else if info.bank == "UOB One" then pack (calcUOBOne deposit info reqs)
  else if info.bank == "OCBC 360" then pack (calcOCBC360 deposit info reqs)
  else if info.bank == "BOC SmartSaver" then pack (calcBOCSmartSaver deposit info reqs)
  else if info.bank == "Chocolate" then pack (calcChocolate deposit info)
  else if info.bank == "DBS Multiplier" then pack (calcDBSMultiplier deposit info reqs)
  else .ok { total_interest := 0, breakdown := [] }

/-- One optimizer solution record (`top_solutions` entries,
lines 421-425 and 490-495).  The distribution is an insertion-ordered
association list mirroring the Python dict. -/
structure Solution where
  distribution : List (String × ℕ)
  total_interest : ℚ
  breakdown : List (String × List TierApp)
  salary_bank : Option String
deriving DecidableEq, Repr

/-- A fresh placeholder entry of the top-3 list. -/
def emptySolution : Solution :=
  { distribution := [], total_interest := 0, breakdown := [], salary_bank := none }

/-- The initial top-3 list (lines 421-425). -/
def initial_top_solutions : List Solution := [emptySolution, emptySolution, emptySolution]

/-- `bonus_caps` (lines 428-434).  Only the five listed banks are ever looked
up by the search. -/
def bonus_caps (bank : String) : ℕ :=
  if bank == "UOB One" then 150000
  else if bank == "SC BonusSaver" then 100000
  else if bank == "OCBC 360" then 100000
  else if bank == "BOC SmartSaver" then 100000
  else if bank == "Chocolate" then 50000
  else 0

/-- `all_banks` (line 518). -/
def all_banks : List String :=
  ["UOB One", "SC BonusSaver", "OCBC 360", "BOC SmartSaver", "Chocolate"]

/-- The candidate salary banks (line 522). -/
def salary_banks : List String := ["SC BonusSaver", "OCBC 360", "BOC SmartSaver"]

/-- `range(0, stop, 5000)`: the multiples of 5000 strictly below `stop`. -/
def pythonRange5000 (stop : ℕ) : List ℕ :=
  (List.range ((stop + 4999) / 5000)).map (fun k => k * 5000)

/-- `sum(amounts_dict.values())`. -/
def distSum (dist : List (String × ℕ)) : ℕ := (dist.map (fun p => p.2)).sum

/-- The per-product requirements copy built inside `try_combination`
(lines 475-480): UOB One always keeps the user's own salary flag, every other
bank is credited with the salary only when it is this branch's salary bank. -/
def branch_bank_reqs (user : Requirements) (salary_bank : Option String)
    (bank : String) : Requirements :=
  if bank == "UOB One" then user
  else { user with has_salary := (salary_bank == some bank) && user.has_salary }

/-- Lines 473-484 of `try_combination`: evaluate each positively-funded bank
of the candidate distribution and accumulate total interest and per-bank
breakdowns.  An exception from any single calculation propagates. -/
def evalDistribution (bd : String → BankInfo) (user : Requirements)
    (salary_bank : Option String) :
    List (String × ℕ) → Except CalcError (ℚ × List (String × List TierApp))
  | [] => .ok (0, [])
  | (bank, amount) :: rest =>
    if amount > 0 then
      match calculate_bank_interest (amount : ℚ) (bd bank)
          (branch_bank_reqs user salary_bank bank) with
      | .error e => .error e
      | .ok result =>
        match evalDistribution bd user salary_bank rest with
        | .error e => .error e
        | .ok acc => .ok (result.total_interest + acc.1, (bank, result.breakdown) :: acc.2)
    else evalDistribution bd user salary_bank rest

/-- The bounded insertion of lines 486-497: place the candidate before the
first kept solution it strictly beats, shifting the tail down and dropping
the last entry; no insertion on a tie. -/
def insertTop : List Solution → Solution → List Solution
  | [], _ => []
  | s :: rest, cand =>
    if s.total_interest < cand.total_interest then cand :: (s :: rest).dropLast
    else s :: insertTop rest cand

/-- `try_combination` (lines 460-497), minus the progress reporting:
reject a distribution more than one increment away from the target, otherwise
evaluate it and insert it into the top-3 list. -/
def try_combination (bd : String → BankInfo) (user : Requirements) (total_amount : ℕ)
    (dist : List (String × ℕ)) (salary_bank : Option String) (tops : List Solution) :
    Except CalcError (List Solution) :=
  if ((distSum dist : ℤ) - (total_amount : ℤ)).natAbs > 5000 then .ok tops
  else
    match evalDistribution bd user salary_bank dist with
    | .error e => .error e
    | .ok acc =>
      .ok (insertTop tops
        { distribution := dist, total_interest := acc.1,
          breakdown := acc.2, salary_bank := salary_bank })

/-- Sequential fold of an `Except`-valued step over a list, stopping at the
first error — the shape of every loop of the search. -/
def foldE {σ α : Type} (f : σ → α → Except CalcError σ) :
    List α → σ → Except CalcError σ
  | [], s => .ok s
  | a :: as, s =>
    match f s a with
    | .error e => .error e
    | .ok s2 => foldE f as s2

/-- `try_all_combinations` (lines 499-515).  The bank list is the first
argument (the recursion is structural over it); the remaining amount, current
distribution, salary bank and top-3 list follow. -/
def try_all_combinations (bd : String → BankInfo) (user : Requirements)
    (total_amount : ℕ) :
    List String → ℕ → List (String × ℕ) → Option String → List Solution →
    Except CalcError (List Solution)
  | [], remaining_amount, dist, salary_bank, tops =>
    if remaining_amount < 5000 then
      try_combination bd user total_amount dist salary_bank tops
    else .ok tops
  | current_bank :: next_banks, remaining_amount, dist, salary_bank, tops =>
    let max_amount := min remaining_amount (bonus_caps current_bank)
    foldE
      (fun acc amount =>
        if amount ≤ max_amount then
          try_all_combinations bd user total_amount next_banks
            (remaining_amount - amount)
            (if amount > 0 then dist ++ [(current_bank, amount)] else dist)
            salary_bank acc
        else .ok acc)
      (pythonRange5000 (max_amount + 5000)) tops

/-- `optimize_bank_distribution` (lines 417-548), minus the progress
reporting and final display: the salary-assignment passes (one per candidate
salary bank, taken only when the user has a salary) followed by the
no-salary pass. -/
def optimize_bank_distribution (total_amount : ℕ) (bd : String → BankInfo)
    (user : Requirements) : Except CalcError (List Solution) :=
  let afterSalary : Except CalcError (List Solution) :=
    if user.has_salary then
      foldE
        (fun acc salary_bank =>
          foldE
            (fun acc2 amount =>
              if amount ≤ total_amount then
                try_all_combinations bd user total_amount
                  (all_banks.filter (fun b => !(b == salary_bank)))
                  (total_amount - amount)
                  (if amount > 0 then [(salary_bank, amount)] else [])
                  (some salary_bank) acc2
              else .ok acc2)
            (pythonRange5000 (min (total_amount + 5000) (bonus_caps salary_bank + 5000)))
            acc)
        salary_banks initial_top_solutions
    else .ok initial_top_solutions
  match afterSalary with
  | .error e => .error e
  | .ok tops =>
    try_all_combinations bd user total_amount all_banks total_amount [] none tops

/-- `min_spends` (lines 1171-1177). -/
def min_spends (bank : String) : ℚ :=
  if bank == "UOB One" then 500
  else if bank == "SC BonusSaver" then 1000
  else if bank == "OCBC 360" then 500
  else if bank == "BOC SmartSaver" then 500
  else 0

/-- `min(min_spends.values())` over the four entries above. -/
def smallest_min_spend : ℚ := min (min (min 500 1000) 500) 500

/-- `min_spends.keys()` in insertion order. -/
def spend_keys : List String :=
  ["UOB One", "SC BonusSaver", "OCBC 360", "BOC SmartSaver"]

/-- Dictionary access on an association list. -/
def lookupQ (l : List (String × ℚ)) (k : String) : Option ℚ :=
  (l.find? (fun p => p.1 == k)).map (fun p => p.2)

/-- The accumulator of `optimize_spend_allocation`:
best allocation, its total interest, and its per-bank breakdown. -/
structure SpendState where
  best_allocation : List (String × ℚ)
  best_total_interest : ℚ
  best_breakdown : List (String × CalculationResult)
deriving DecidableEq, Repr

/-- Lines 1189-1207: evaluate one candidate spend allocation by running the
calculator for every allocated bank with its spend substituted in.  (The UOB
One special case of lines 1197-1199 copies the base values back unchanged,
a no-op here.) -/
def spendEval (bd : String → BankInfo) (deposit_amounts : List (String × ℚ))
    (base_reqs : Requirements) :
    List (String × ℚ) → Except CalcError (ℚ × List (String × CalculationResult))
  | [] => .ok (0, [])
  | (bank, spend) :: rest =>
    let bank_reqs := { base_reqs with spend_amount := spend }
    match calculate_bank_interest ((lookupQ deposit_amounts bank).getD 0)
        (bd bank) bank_reqs with
    | .error e => .error e
    | .ok result =>
      match spendEval bd deposit_amounts base_reqs rest with
      | .error e => .error e
      | .ok acc => .ok (result.total_interest + acc.1, (bank, result) :: acc.2)

/-- The base case of `try_allocation` (lines 1187-1213): evaluate the current
allocation and keep it if it strictly beats the best so far. -/
def spendLeaf (bd : String → BankInfo) (deposit_amounts : List (String × ℚ))
    (base_reqs : Requirements) (alloc : List (String × ℚ)) (st : SpendState) :
    Except CalcError SpendState :=
  match spendEval bd deposit_amounts base_reqs alloc with
  | .error e => .error e
  | .ok acc =>
    if st.best_total_interest < acc.1 then
      .ok { best_allocation := alloc, best_total_interest := acc.1,
            best_breakdown := acc.2 }
    else .ok st

/-- `try_allocation` (lines 1183-1243): branch on skip / allocate the bank's
minimum spend / (for BOC SmartSaver) allocate the elevated $1,500 sub-tier. -/
def try_allocation (bd : String → BankInfo) (deposit_amounts : List (String × ℚ))
    (base_reqs : Requirements) :
    List String → ℚ → List (String × ℚ) → SpendState → Except CalcError SpendState
  | [], _, alloc, st => spendLeaf bd deposit_amounts base_reqs alloc st
  | current_bank :: rest, remaining_spend, alloc, st =>
    if remaining_spend < smallest_min_spend then
      spendLeaf bd deposit_amounts base_reqs alloc st
    else
      match try_allocation bd deposit_amounts base_reqs rest remaining_spend alloc st with
      | .error e => .error e
      | .ok st1 =>
        if min_spends current_bank ≤ remaining_spend then
          match try_allocation bd deposit_amounts base_reqs rest
              (remaining_spend - min_spends current_bank)
              (alloc ++ [(current_bank, min_spends current_bank)]) st1 with
          | .error e => .error e
          | .ok st2 =>
            if current_bank == "BOC SmartSaver" && decide (remaining_spend ≥ 1500) then
              try_allocation bd deposit_amounts base_reqs rest
                (remaining_spend - 1500)
                (alloc ++ [(current_bank, 1500)]) st2
            else .ok st2
        else .ok st1

/-- `optimize_spend_allocation` (lines 1166-1250): banks with a positive
deposit allocation are eligible; search from an empty best state. -/
def optimize_spend_allocation (total_spend : ℚ) (bd : String → BankInfo)
    (deposit_amounts : List (String × ℚ)) (base_reqs : Requirements) :
    Except CalcError SpendState :=
  let eligible_banks := spend_keys.filter (fun bank =>
    match lookupQ deposit_amounts bank with
    | some d2 => decide (0 < d2)
    | none => false)
  try_allocation bd deposit_amounts base_reqs eligible_banks total_spend []
    { best_allocation := [], best_total_interest := 0, best_breakdown := [] }

/-! Concrete data used by witnesses and counterexamples. -/

/-- A requirements record with everything off. -/
def zeroReqs : Requirements :=
  { has_salary := false, salary_amount := 0, spend_amount := 0, giro_count := 0,
    has_insurance := false, insurance_amount := 0, has_investments := false,
    investment_amount := 0, has_home_loan := false, home_loan_amount := 0,
    increased_balance := false, grew_wealth := false }

/-- Shorthand tier constructor for the example tables. -/
def mkTier (tt bt : String) (rate : ℚ) (rt : String) (mspend msal cap : ℚ) : Tier :=
  { tier_type := tt, balance_tier := bt, interest_rate := rate,
    requirement_type := rt, min_spend := mspend, min_salary := msal,
    cap_amount := cap, remarks := "" }

/-- An example tier table with positive rates for all five optimizer banks. -/
def egBanks (bank : String) : BankInfo :=
  if bank == "UOB One" then
    ⟨"UOB One", [mkTier "base" "1" (5/100) "base" 0 0 75000]⟩
  else if bank == "SC BonusSaver" then
    ⟨"SC BonusSaver",
      [mkTier "salary" "1" 1 "salary" 0 3000 100000,
       mkTier "spend" "1" 1 "spend" 500 0 100000,
       mkTier "base" "1" (5/100) "base" 0 0 0]⟩
  else if bank == "OCBC 360" then
    ⟨"OCBC 360",
      [mkTier "base" "1" (5/100) "base" 0 0 0,
       mkTier "salary" "1" 2 "salary" 0 1800 75000,
       mkTier "spend" "1" (6/10) "spend" 500 0 75000]⟩
  else if bank == "BOC SmartSaver" then
    ⟨"BOC SmartSaver", []⟩
  else if bank == "Chocolate" then
    ⟨"Chocolate",
      [mkTier "base" "1" (33/10) "base" 0 0 20000,
       mkTier "base" "2" 3 "base" 0 0 30000]⟩
  else ⟨bank, []⟩

/-- A tier table in which every rate is zero (all other structure intact). -/
def zeroRateBanks (bank : String) : BankInfo :=
  if bank == "UOB One" then
    ⟨"UOB One", [mkTier "base" "1" 0 "base" 0 0 75000]⟩
  else if bank == "SC BonusSaver" then
    ⟨"SC BonusSaver",
      [mkTier "salary" "1" 0 "salary" 0 3000 100000,
       mkTier "spend" "1" 0 "spend" 500 0 100000,
       mkTier "base" "1" 0 "base" 0 0 0]⟩
  else if bank == "OCBC 360" then
    ⟨"OCBC 360",
      [mkTier "base" "1" 0 "base" 0 0 0,
       mkTier "salary" "1" 0 "salary" 0 1800 75000,
       mkTier "spend" "1" 0 "spend" 500 0 75000]⟩
  else if bank == "BOC SmartSaver" then
    ⟨"BOC SmartSaver", []⟩
  else if bank == "Chocolate" then
    ⟨"Chocolate",
      [mkTier "base" "1" 0 "base" 0 0 20000,
       mkTier "base" "2" 0 "base" 0 0 30000]⟩
  else ⟨bank, []⟩

/-- The example table with SC BonusSaver's rows removed entirely: its
required `salary` tier (among others) is missing. -/
def scBrokenBanks (bank : String) : BankInfo :=
  if bank == "SC BonusSaver" then ⟨"SC BonusSaver", []⟩ else egBanks bank

/-- The top-3 list returned by the example optimizer run. -/
def egTops : List Solution :=
  (optimize_bank_distribution 5000 egBanks zeroReqs).toOption.getD []

/-- The best solution of the example optimizer run. -/
def egBest : Solution := egTops.getD 0 emptySolution

attribute [local semireducible] Rat.mul Rat.add Rat.sub Rat.inv Rat.ofScientific

/-- Descending order of the top-3 list by `total_interest`. -/
def sortedDesc (tops : List Solution) : Prop :=
  List.Pairwise (fun a b => b.total_interest ≤ a.total_interest) tops


/-- What `try_combination` knows about every candidate it inserts:
the tolerance check passed and the recorded interest/breakdown are exactly
what `evalDistribution` produced for the recorded distribution. -/
def CandOK (bd : String → BankInfo) (user : Requirements) (total_amount : ℕ)
    (cand : Solution) : Prop :=
  ((distSum cand.distribution : ℤ) - (total_amount : ℤ)).natAbs ≤ 5000 ∧
  evalDistribution bd user cand.salary_bank cand.distribution =
    .ok (cand.total_interest, cand.breakdown)


/-- A user with salary credit and a $600 card spend, used to exhibit the
UOB One salary special case. -/
def salaryUser : Requirements :=
  { zeroReqs with has_salary := true, salary_amount := 3500, spend_amount := 600 }

/-- A UOB One table whose salary ladder pays 6.5% and whose spend-only
ladder pays 0%, making the salary treatment observable in the output. -/
def uobObsBanks (bank : String) : BankInfo :=
  if bank == "UOB One" then
    ⟨"UOB One",
      [mkTier "salary" "1" (65/10) "salary" 0 0 150000,
       mkTier "spend_only" "1" 0 "spend_only" 0 0 150000,
       mkTier "base" "1" 0 "base" 0 0 75000]⟩
  else egBanks bank


/-- A UOB One table whose spend-only ladder pays 6.5%, so a spend allocation
is observably kept. -/
def spendBanks (bank : String) : BankInfo :=
  if bank == "UOB One" then
    ⟨"UOB One",
      [mkTier "spend_only" "1" (65/10) "spend_only" 0 0 150000,
       mkTier "base" "1" 0 "base" 0 0 75000]⟩
  else egBanks bank

/-- The spend-allocator state of the example run. -/
def egSpendState : SpendState :=
  (optimize_spend_allocation 500 spendBanks [("UOB One", 10000)] zeroReqs).toOption.getD
    { best_allocation := [], best_total_interest := 0, best_breakdown := [] }


/-- Eligibility of a bank for the spend allocator: its deposit allocation is
present and strictly positive. -/
def eligibleDeposit (dep : List (String × ℚ)) (bank : String) : Prop :=
  match lookupQ dep bank with
  | some d2 => 0 < d2
  | none => False

/-- The shape every spend-allocation entry must have: an eligible bank, with
either its minimum qualifying spend or (for BOC SmartSaver only) the
elevated $1,500 sub-tier threshold. -/
def spendEntryShape (dep : List (String × ℚ)) (p : String × ℚ) : Prop :=
  eligibleDeposit dep p.1 ∧
  (p.2 = min_spends p.1 ∨ (p.1 = "BOC SmartSaver" ∧ p.2 = 1500))


/-! Helper lemmas: the running total equals the sum of the breakdown. -/

lemma sumInterest_nil : sumInterest [] = 0 := rfl

lemma sumInterest_cons (e : TierApp) (l : List TierApp) :
    sumInterest (e :: l) = e.tier_interest + sumInterest l := by
  simp [sumInterest]

lemma sumInterest_append (l1 l2 : List TierApp) :
    sumInterest (l1 ++ l2) = sumInterest l1 + sumInterest l2 := by
  simp [sumInterest]

lemma mkTierApp_interest (a r : ℚ) (d : String) :
    (mkTierApp a r d).tier_interest = a * r := rfl

lemma addTier_inv {acc : ℚ × List TierApp} (a r : ℚ) (d : String)
    (h : acc.1 = sumInterest acc.2) :
    (addTier acc a r d).1 = sumInterest (addTier acc a r d).2 := by
  simp [addTier, sumInterest_append, sumInterest_cons, sumInterest_nil,
    mkTierApp_interest, h]

lemma condBonusTier_inv {cond : Bool} {p : Tier → Bool} {ts : List Tier}
    {amtOf : Tier → ℚ} {descOf : Tier → String} {acc acc2 : ℚ × List TierApp}
    (h2 : condBonusTier cond p ts amtOf descOf acc = .ok acc2)
    (h : acc.1 = sumInterest acc.2) :
    acc2.1 = sumInterest acc2.2 := by
  unfold condBonusTier at h2
  split at h2
  · split at h2
    · cases h2
    · cases h2
      exact addTier_inv _ _ _ h
  · cases h2
    exact h

lemma calcSCBonusSaver_inv {deposit : ℚ} {info : BankInfo} {reqs : Requirements}
    {acc : ℚ × List TierApp}
    (h : calcSCBonusSaver deposit info reqs = .ok acc) :
    acc.1 = sumInterest acc.2 := by
  unfold calcSCBonusSaver at h
  split at h
  · cases h
  · split at h
    · cases h
    · split at h
      · cases h
      · dsimp only at h
        split at h
        · cases h
        · rename_i hctail
          refine condBonusTier_inv h (condBonusTier_inv hctail ?_)
          split
          · split
            · exact addTier_inv _ _ _ (addTier_inv _ _ _ (addTier_inv _ _ _ (by simp [sumInterest_nil])))
            · exact addTier_inv _ _ _ (addTier_inv _ _ _ (by simp [sumInterest_nil]))
          · split
            · exact addTier_inv _ _ _ (addTier_inv _ _ _ (by simp [sumInterest_nil]))
            · exact addTier_inv _ _ _ (by simp [sumInterest_nil])

lemma uobLadder_inv (tag : String) (ts : List Tier) (remaining : ℚ) :
    (uobLadder tag ts remaining).1 = sumInterest (uobLadder tag ts remaining).2 := by
  induction ts generalizing remaining with
  | nil => simp [uobLadder, sumInterest_nil]
  | cons t rest ih =>
    unfold uobLadder
    dsimp only
    split
    · simp [sumInterest_nil]
    · simp [sumInterest_cons, mkTierApp_interest, ih]

lemma calcUOBOne_inv {deposit : ℚ} {info : BankInfo} {reqs : Requirements}
    {acc : ℚ × List TierApp}
    (h : calcUOBOne deposit info reqs = .ok acc) :
    acc.1 = sumInterest acc.2 := by
  unfold calcUOBOne at h
  dsimp only at h
  split at h
  · split at h
    · cases h
      exact uobLadder_inv _ _ _
    · split at h
      · cases h
        exact uobLadder_inv _ _ _
      · cases h
        exact uobLadder_inv _ _ _
  · split at h
    · cases h
    · cases h
      exact addTier_inv _ _ _ (by simp [sumInterest_nil])

lemma processOcbcTier_inv (info : BankInfo) (f75 n25 : ℚ) (tt : String) (met : Bool) :
    (processOcbcTier info f75 n25 tt met).1 + (processOcbcTier info f75 n25 tt met).2.1 =
      sumInterest (processOcbcTier info f75 n25 tt met).2.2 := by
  unfold processOcbcTier
  split
  · dsimp only
    split <;> split <;>
      simp [sumInterest_append, sumInterest_cons, sumInterest_nil, mkTierApp_interest]
  · simp [sumInterest_nil]

lemma calcOCBC360_inv {deposit : ℚ} {info : BankInfo} {reqs : Requirements}
    {acc : ℚ × List TierApp}
    (h : calcOCBC360 deposit info reqs = .ok acc) :
    acc.1 = sumInterest acc.2 := by
  unfold calcOCBC360 at h
  split at h
  · cases h
  · rename_i base_tier hbase
    split at h
    · cases h
    · rename_i salary_tier hsal
      split at h
      · cases h
      · rename_i spend_tier hsp
        cases h
        dsimp only
        have g1 := processOcbcTier_inv info (min deposit 75000)
          (min (max (deposit - 75000) 0) 25000)
        simp only [sumInterest_append, sumInterest_cons, sumInterest_nil,
          mkTierApp_interest]
        have e1 := g1 "salary"
          (reqs.has_salary && decide (reqs.salary_amount ≥ salary_tier.min_salary))
        have e2 := g1 "save" reqs.increased_balance
        have e3 := g1 "spend" (decide (reqs.spend_amount ≥ spend_tier.min_spend))
        have e4 := g1 "insure" reqs.has_insurance
        have e5 := g1 "invest" reqs.has_investments
        have e6 := g1 "grow" reqs.grew_wealth
        linarith

lemma bocBaseLoop_inv (deposit : ℚ) (ts : List Tier) (prev_cap : ℚ) :
    (bocBaseLoop deposit ts prev_cap).1 = sumInterest (bocBaseLoop deposit ts prev_cap).2 := by
  induction ts generalizing prev_cap with
  | nil => simp [bocBaseLoop, sumInterest_nil]
  | cons t rest ih =>
    unfold bocBaseLoop
    dsimp only
    split
    · simp [sumInterest_nil]
    · simp [sumInterest_cons, mkTierApp_interest, ih]

lemma calcBOCSmartSaver_inv {deposit : ℚ} {info : BankInfo} {reqs : Requirements}
    {acc : ℚ × List TierApp}
    (h : calcBOCSmartSaver deposit info reqs = .ok acc) :
    acc.1 = sumInterest acc.2 := by
  unfold calcBOCSmartSaver at h
  dsimp only at h
  split at h
  · split at h
    · cases h
    · rename_i acc1 h1
      split at h
      · cases h
      · rename_i acc2 h2
        split at h
        · cases h
        · rename_i acc3 h3
          exact condBonusTier_inv h (condBonusTier_inv h3 (condBonusTier_inv h2
            (condBonusTier_inv h1 (bocBaseLoop_inv _ _ _))))
  · cases h
    exact bocBaseLoop_inv _ _ _

lemma calcChocolate_inv {deposit : ℚ} {info : BankInfo}
    {acc : ℚ × List TierApp}
    (h : calcChocolate deposit info = .ok acc) :
    acc.1 = sumInterest acc.2 := by
  unfold calcChocolate at h
  split at h
  · cases h
  · split at h
    · cases h
    · dsimp only at h
      split at h
      · split at h
        · cases h
        · cases h
          simp [sumInterest_cons, sumInterest_nil, mkTierApp_interest]
      · cases h
        simp [sumInterest_cons, sumInterest_nil, mkTierApp_interest]

lemma calcDBSMultiplier_inv {deposit : ℚ} {info : BankInfo} {reqs : Requirements}
    {acc : ℚ × List TierApp}
    (h : calcDBSMultiplier deposit info reqs = .ok acc) :
    acc.1 = sumInterest acc.2 := by
  unfold calcDBSMultiplier at h
  split at h
  · cases h
    simp [sumInterest_cons, sumInterest_nil, mkTierApp_interest]
  · dsimp only at h
    split at h
    · cases h
      simp [sumInterest_cons, sumInterest_nil, mkTierApp_interest]
    · split at h
      · cases h
        split <;> split <;>
          simp [sumInterest_append, sumInterest_cons, sumInterest_nil, mkTierApp_interest]
      · cases h
        simp [sumInterest_cons, sumInterest_nil, mkTierApp_interest]

lemma calculate_bank_interest_inv {deposit : ℚ} {info : BankInfo}
    {reqs : Requirements} {r : CalculationResult}
    (h : calculate_bank_interest deposit info reqs = .ok r) :
    r.total_interest = sumInterest r.breakdown := by
  unfold calculate_bank_interest at h
  dsimp only at h
  split at h
  · split at h
    · cases h
    · cases h
      exact calcSCBonusSaver_inv (by assumption)
  · split at h
    · split at h
      · cases h
      · cases h
        exact calcUOBOne_inv (by assumption)
    · split at h
      · split at h
        · cases h
        · cases h
          exact calcOCBC360_inv (by assumption)
      · split at h
        · split at h
          · cases h
          · cases h
            exact calcBOCSmartSaver_inv (by assumption)
        · split at h
          · split at h
            · cases h
            · cases h
              exact calcChocolate_inv (by assumption)
          · split at h
            · split at h
              · cases h
              · cases h
                exact calcDBSMultiplier_inv (by assumption)
            · cases h
              simp [sumInterest_nil]

/-! Helper lemmas: the top-3 insertion and the search recursion. -/

lemma mem_dropLast {α : Type} {l : List α} {x : α} (h : x ∈ l.dropLast) : x ∈ l :=
  (List.dropLast_sublist l).subset h

lemma insertTop_cases {tops : List Solution} {cand s : Solution}
    (h : s ∈ insertTop tops cand) :
    s ∈ tops ∨ (s = cand ∧ ∃ t ∈ tops, t.total_interest < cand.total_interest) := by
  induction tops with
  | nil => simp [insertTop] at h
  | cons a rest ih =>
    unfold insertTop at h
    split at h
    · rename_i hlt
      rcases List.mem_cons.mp h with h2 | h2
      · exact Or.inr ⟨h2, a, List.mem_cons_self _ _, hlt⟩
      · exact Or.inl (mem_dropLast h2)
    · rcases List.mem_cons.mp h with h2 | h2
      · exact Or.inl (h2 ▸ List.mem_cons_self _ _)
      · rcases ih h2 with h3 | ⟨rfl, t, ht, hlt⟩
        · exact Or.inl (List.mem_cons_of_mem _ h3)
        · exact Or.inr ⟨rfl, t, List.mem_cons_of_mem _ ht, hlt⟩

lemma insertTop_sorted {tops : List Solution} {cand : Solution}
    (h : sortedDesc tops) : sortedDesc (insertTop tops cand) := by
  induction tops with
  | nil => simp [insertTop, sortedDesc]
  | cons a rest ih =>
    rcases List.pairwise_cons.mp h with ⟨h1, h2⟩
    unfold insertTop
    split
    · rename_i hlt
      refine List.pairwise_cons.mpr ⟨?_, ?_⟩
      · intro b hb
        rcases List.mem_cons.mp (mem_dropLast hb) with hb2 | hb2
        · exact hb2 ▸ le_of_lt hlt
        · exact le_trans (h1 _ hb2) (le_of_lt hlt)
      · exact h.sublist (List.dropLast_sublist _)
    · rename_i hge
      refine List.pairwise_cons.mpr ⟨?_, ih h2⟩
      intro b hb
      rcases insertTop_cases hb with hb2 | ⟨rfl, -⟩
      · exact h1 _ hb2
      · exact le_of_not_lt hge

lemma insertTop_tie {tops : List Solution} {cand t : Solution}
    (hs : sortedDesc tops) (ht : t ∈ tops)
    (he : t.total_interest = cand.total_interest) : t ∈ insertTop tops cand := by
  induction tops with
  | nil => cases ht
  | cons a rest ih =>
    rcases List.pairwise_cons.mp hs with ⟨h1, h2⟩
    unfold insertTop
    split
    · rename_i hlt
      exfalso
      rcases List.mem_cons.mp ht with rfl | ht2
      · exact absurd (he ▸ hlt) (lt_irrefl _)
      · exact absurd (lt_of_le_of_lt (he ▸ h1 _ ht2) hlt) (lt_irrefl _)
    · rcases List.mem_cons.mp ht with rfl | ht2
      · exact List.mem_cons_self _ _
      · exact List.mem_cons_of_mem _ (ih h2 ht2)

lemma foldE_pres {σ α : Type} {f : σ → α → Except CalcError σ} (R : σ → Prop)
    {l : List α} {s s2 : σ}
    (hf : ∀ st a st2, a ∈ l → R st → f st a = .ok st2 → R st2)
    (hs : R s) (h : foldE f l s = .ok s2) : R s2 := by
  induction l generalizing s with
  | nil =>
    unfold foldE at h
    cases h
    exact hs
  | cons a as ih =>
    unfold foldE at h
    split at h
    · cases h
    · rename_i st2 hstep
      exact ih (fun st b stb hb => hf st b stb (List.mem_cons_of_mem _ hb))
        (hf s a st2 (List.mem_cons_self _ _) hs hstep) h

lemma mem_pythonRange5000 {a n : ℕ} (h : a ∈ pythonRange5000 n) :
    5000 ∣ a ∧ a < n := by
  unfold pythonRange5000 at h
  rcases List.mem_map.mp h with ⟨k, hk, rfl⟩
  have hk2 := List.mem_range.mp hk
  constructor
  · exact ⟨k, by ring⟩
  · have h3 : (k + 1) * 5000 ≤ ((n + 4999) / 5000) * 5000 :=
      Nat.mul_le_mul_right _ hk2
    have h4 : ((n + 4999) / 5000) * 5000 ≤ n + 4999 := Nat.div_mul_le_self _ _
    omega

lemma bonus_caps_div (bank : String) : 5000 ∣ bonus_caps bank := by
  unfold bonus_caps
  split
  · decide
  · split
    · decide
    · split
      · decide
      · split
        · decide
        · split <;> decide

lemma try_combination_pres {bd : String → BankInfo} {user : Requirements}
    {total_amount : ℕ} (Q : List Solution → Prop)
    (D : List (String × ℕ) → Prop)
    (hins : ∀ tops cand, Q tops → D cand.distribution →
      CandOK bd user total_amount cand → Q (insertTop tops cand))
    {dist : List (String × ℕ)} {sb : Option String} {tops tops2 : List Solution}
    (hQ : Q tops) (hD : D dist)
    (h : try_combination bd user total_amount dist sb tops = .ok tops2) : Q tops2 := by
  unfold try_combination at h
  split at h
  · cases h
    exact hQ
  · rename_i htol
    split at h
    · cases h
    · rename_i acc heval
      cases h
      refine hins tops _ hQ hD ⟨?_, heval⟩
      show ((distSum dist : ℤ) - (total_amount : ℤ)).natAbs ≤ 5000
      omega

lemma try_all_pres {bd : String → BankInfo} {user : Requirements} {total_amount : ℕ}
    (Q : List Solution → Prop) (D : List (String × ℕ) → Prop)
    (hins : ∀ tops cand, Q tops → D cand.distribution →
      CandOK bd user total_amount cand → Q (insertTop tops cand))
    (hext : ∀ dist bank amt, D dist → 0 < amt → amt ≤ bonus_caps bank →
      5000 ∣ amt → D (dist ++ [(bank, amt)])) :
    ∀ (banks : List String) (remaining : ℕ) (dist : List (String × ℕ))
      (sb : Option String) (tops tops2 : List Solution),
      D dist → Q tops →
      try_all_combinations bd user total_amount banks remaining dist sb tops = .ok tops2 →
      Q tops2 := by
  intro banks
  induction banks with
  | nil =>
    intro remaining dist sb tops tops2 hD hQ h
    unfold try_all_combinations at h
    split at h
    · exact try_combination_pres Q D hins hQ hD h
    · cases h
      exact hQ
  | cons bank rest ih =>
    intro remaining dist sb tops tops2 hD hQ h
    unfold try_all_combinations at h
    dsimp only at h
    refine foldE_pres Q ?_ hQ h
    intro st amount st2 hmem hQst hstep
    split at hstep
    · rename_i hle
      refine ih (remaining - amount) _ sb st st2 ?_ hQst hstep
      split
      · rename_i hpos
        exact hext dist bank amount hD hpos
          (le_trans hle (min_le_right _ _)) (mem_pythonRange5000 hmem).1
      · exact hD
    · cases hstep
      exact hQst

lemma optimize_pres {bd : String → BankInfo} {user : Requirements} {total_amount : ℕ}
    (Q : List Solution → Prop) (D : List (String × ℕ) → Prop)
    (hins : ∀ tops cand, Q tops → D cand.distribution →
      CandOK bd user total_amount cand → Q (insertTop tops cand))
    (hext : ∀ dist bank amt, D dist → 0 < amt → amt ≤ bonus_caps bank →
      5000 ∣ amt → D (dist ++ [(bank, amt)]))
    (hQ0 : Q initial_top_solutions) (hD0 : D [])
    {sols : List Solution}
    (h : optimize_bank_distribution total_amount bd user = .ok sols) : Q sols := by
  unfold optimize_bank_distribution at h
  dsimp only at h
  split at h
  · cases h
  · rename_i tops hAfter
    have hQtops : Q tops := by
      split at hAfter
      · refine foldE_pres Q ?_ hQ0 hAfter
        intro st sb st2 hsbmem hQst hstep
        refine foldE_pres Q ?_ hQst hstep
        intro st3 amount st4 hamem hQst3 hstep2
        split at hstep2
        · rename_i hle
          have hdiv := (mem_pythonRange5000 hamem).1
          have hlt := (mem_pythonRange5000 hamem).2
          have hcap : amount ≤ bonus_caps sb := by
            rcases hdiv with ⟨k, hk⟩
            rcases bonus_caps_div sb with ⟨m, hm⟩
            have : amount < bonus_caps sb + 5000 := lt_of_lt_of_le hlt (min_le_right _ _)
            omega
          refine try_all_pres Q D hins hext _ _ _ _ st3 st4 ?_ hQst3 hstep2
          split
          · rename_i hpos
            exact hext [] sb amount hD0 hpos hcap hdiv
          · exact hD0
        · cases hstep2
          exact hQst3
      · cases hAfter
        exact hQ0
    exact try_all_pres Q D hins hext _ _ _ _ tops sols hD0 hQtops h

lemma insertTop_initial_zero (sb : Option String) :
    insertTop initial_top_solutions
      { distribution := [], total_interest := 0, breakdown := [], salary_bank := sb } =
      initial_top_solutions := by
  simp [initial_top_solutions, emptySolution, insertTop]

lemma try_combination_zero (bd : String → BankInfo) (u : Requirements) (sb : Option String) :
    try_combination bd u 0 [] sb initial_top_solutions = .ok initial_top_solutions := by
  unfold try_combination
  simp [distSum, evalDistribution, insertTop_initial_zero]

lemma try_all_zero (bd : String → BankInfo) (u : Requirements) :
    ∀ (banks : List String) (sb : Option String),
      try_all_combinations bd u 0 banks 0 [] sb initial_top_solutions =
        .ok initial_top_solutions := by
  intro banks
  induction banks with
  | nil =>
    intro sb
    unfold try_all_combinations
    simp [try_combination_zero]
  | cons bank rest ih =>
    intro sb
    unfold try_all_combinations
    dsimp only
    have h1 : min 0 (bonus_caps bank) = 0 := Nat.zero_min _
    rw [h1]
    have h2 : pythonRange5000 (0 + 5000) = [0] := rfl
    rw [h2]
    simp [foldE, ih sb]

lemma salary_amounts_zero (bd : String → BankInfo) (u : Requirements) (sb : String) :
    ∀ (l : List ℕ),
      foldE (fun acc2 amount =>
          if amount ≤ 0 then
            try_all_combinations bd u 0
              (all_banks.filter (fun b => !(b == sb)))
              (0 - amount)
              (if amount > 0 then [(sb, amount)] else [])
              (some sb) acc2
          else .ok acc2)
        l initial_top_solutions = .ok initial_top_solutions := by
  intro l
  induction l with
  | nil => rfl
  | cons a as ih =>
    unfold foldE
    have hstep :
        (if a ≤ 0 then
          try_all_combinations bd u 0
            (all_banks.filter (fun b => !(b == sb)))
            (0 - a)
            (if a > 0 then [(sb, a)] else [])
            (some sb) initial_top_solutions
        else .ok initial_top_solutions) = .ok initial_top_solutions := by
      rcases Nat.eq_zero_or_pos a with rfl | hpos
      · simp [try_all_zero]
      · have hna : ¬ (a ≤ 0) := by omega
        rw [if_neg hna]
    rw [hstep]
    exact ih

lemma salary_pass_zero (bd : String → BankInfo) (u : Requirements) :
    ∀ (sbs : List String),
      foldE (fun acc salary_bank =>
          foldE (fun acc2 amount =>
              if amount ≤ 0 then
                try_all_combinations bd u 0
                  (all_banks.filter (fun b => !(b == salary_bank)))
                  (0 - amount)
                  (if amount > 0 then [(salary_bank, amount)] else [])
                  (some salary_bank) acc2
              else .ok acc2)
            (pythonRange5000 (min (0 + 5000) (bonus_caps salary_bank + 5000)))
            acc)
        sbs initial_top_solutions = .ok initial_top_solutions := by
  intro sbs
  induction sbs with
  | nil => rfl
  | cons sb rest ih =>
    unfold foldE
    rw [salary_amounts_zero bd u sb]
    exact ih

/-- Claim C8: for total amount 0 and any requirements record (and any tier
table), `optimize_bank_distribution` returns exactly the three initial
solutions — each with zero total interest and an empty distribution — and
raises no fault. -/
theorem claim_C8_zero_amount_returns_three_empty_solutions
    (bd : String → BankInfo) (u : Requirements) :
    optimize_bank_distribution 0 bd u = .ok initial_top_solutions ∧
    initial_top_solutions.length = 3 ∧
    ∀ s ∈ initial_top_solutions, s.total_interest = 0 ∧ s.distribution = [] := by
  refine ⟨?_, rfl, ?_⟩
  · unfold optimize_bank_distribution
    dsimp only
    by_cases hsal : u.has_salary = true
    · rw [if_pos hsal, salary_pass_zero bd u salary_banks]
      exact try_all_zero bd u all_banks none
    · rw [if_neg hsal]
      exact try_all_zero bd u all_banks none
  · intro s hs
    rcases List.mem_cons.mp hs with rfl | hs2
    · exact ⟨rfl, rfl⟩
    · rcases List.mem_cons.mp hs2 with rfl | hs3
      · exact ⟨rfl, rfl⟩
      · rcases List.mem_cons.mp hs3 with rfl | hs4
        · exact ⟨rfl, rfl⟩
        · cases hs4

/-- Claim C2: for every product, every deposit amount ≥ 0 and every
requirements record, a successfully returned `CalculationResult` satisfies
`total_interest = sum of tier_interest over the breakdown` (exactly, in this
exact-rational embedding). -/
theorem claim_C2_total_interest_is_breakdown_sum
    (deposit : ℚ) (info : BankInfo) (reqs : Requirements) (r : CalculationResult)
    (_hdep : 0 ≤ deposit)
    (h : calculate_bank_interest deposit info reqs = .ok r) :
    r.total_interest = sumInterest r.breakdown :=
  calculate_bank_interest_inv h

/-- Witness for C2 at a concrete input: the DBS Multiplier branch with no
salary credit on a $10,000 deposit. -/
theorem claim_C2_witness :
    (0 : ℚ) ≤ 10000 ∧
    calculate_bank_interest 10000 ⟨"DBS Multiplier", []⟩ zeroReqs =
      .ok ((calculate_bank_interest 10000 ⟨"DBS Multiplier", []⟩ zeroReqs).toOption.getD
        ⟨0, []⟩) ∧
    ((calculate_bank_interest 10000 ⟨"DBS Multiplier", []⟩ zeroReqs).toOption.getD
        ⟨0, []⟩).total_interest =
      sumInterest (((calculate_bank_interest 10000 ⟨"DBS Multiplier", []⟩
        zeroReqs).toOption.getD ⟨0, []⟩).breakdown) :=
  ⟨by norm_num,
   by decide,
   claim_C2_total_interest_is_breakdown_sum 10000 ⟨"DBS Multiplier", []⟩ zeroReqs _
     (by norm_num) (by decide)⟩

/-- Claim C7: for the prerequisite-gated product (DBS Multiplier), for every
deposit ≥ 0 and every requirements record without salary credit, the result
is exactly `deposit × 0.0005` with exactly one breakdown entry. -/
theorem claim_C7_dbs_no_salary_flat_rate
    (deposit : ℚ) (info : BankInfo) (reqs : Requirements)
    (_hdep : 0 ≤ deposit) (hb : info.bank = "DBS Multiplier")
    (hs : reqs.has_salary = false) :
    calculate_bank_interest deposit info reqs =
      .ok { total_interest := deposit * (1/2000),
            breakdown := [mkTierApp deposit (1/2000) "Base Interest (No Salary Credit)"] } ∧
    [mkTierApp deposit (1/2000) "Base Interest (No Salary Credit)"].length = 1 := by
  refine ⟨?_, rfl⟩
  unfold calculate_bank_interest
  dsimp only
  rw [hb]
  have hdbs : calcDBSMultiplier deposit info reqs =
      .ok (deposit * (1/2000),
        [mkTierApp deposit (1/2000) "Base Interest (No Salary Credit)"]) := by
    unfold calcDBSMultiplier
    rw [hs]
    rfl
  simp [hdbs]

/-- Witness for C7 at a concrete input: deposit $10,000, empty tier table,
all requirements off. -/
theorem claim_C7_witness :
    calculate_bank_interest 10000 ⟨"DBS Multiplier", []⟩ zeroReqs =
      .ok { total_interest := 10000 * (1/2000),
            breakdown := [mkTierApp 10000 (1/2000) "Base Interest (No Salary Credit)"] } ∧
    [mkTierApp (10000:ℚ) (1/2000) "Base Interest (No Salary Credit)"].length = 1 :=
  claim_C7_dbs_no_salary_flat_rate 10000 ⟨"DBS Multiplier", []⟩ zeroReqs
    (by norm_num) rfl rfl

/-- Counterexample for C4: in the search branch whose salary-assignee is
SC BonusSaver, the requirements copy built for UOB One — which is not the
assignee — still carries `has_salary = true`, and the evaluated interest for
UOB One is the 6.5% salary-ladder interest (325 on $5,000), not the 0%
spend-only interest the claim would imply. -/
theorem claim_C4_counterexample :
    ("UOB One" = "SC BonusSaver") = False ∧
    salaryUser.has_salary = true ∧
    (branch_bank_reqs salaryUser (some "SC BonusSaver") "UOB One").has_salary = true ∧
    (evalDistribution uobObsBanks salaryUser (some "SC BonusSaver")
        [("UOB One", 5000)]).toOption.map (fun p => p.1) = some 325 := by
  refine ⟨by simp, rfl, rfl, by decide⟩

/-- Claim C4 as amended: in every search branch, every product other than
UOB One that is not the branch's salary-assignee is evaluated with
`has_salary` false (and the assignee itself with the user's salary flag);
UOB One is special-cased and always receives the user's own salary flag,
whether or not it is the assignee. -/
theorem claim_C4_amended_salary_assignment
    (user : Requirements) (sb : Option String) (bank : String) :
    (bank ≠ "UOB One" →
      (branch_bank_reqs user sb bank).has_salary = ((sb == some bank) && user.has_salary)) ∧
    (branch_bank_reqs user sb "UOB One").has_salary = user.has_salary := by
  constructor
  · intro hne
    unfold branch_bank_reqs
    rw [if_neg (by simpa using hne)]
  · rfl

/-- Witness for the amended C4 at a concrete input. -/
theorem claim_C4_amended_witness :
    (branch_bank_reqs salaryUser (some "SC BonusSaver") "OCBC 360").has_salary =
      (((some "SC BonusSaver" : Option String) == some "OCBC 360") && salaryUser.has_salary) ∧
    (branch_bank_reqs salaryUser (some "SC BonusSaver") "UOB One").has_salary =
      salaryUser.has_salary :=
  ⟨(claim_C4_amended_salary_assignment salaryUser (some "SC BonusSaver") "OCBC 360").1
      (by decide),
   (claim_C4_amended_salary_assignment salaryUser (some "SC BonusSaver") "UOB One").2⟩

/-- Claim C5: throughout one optimizer invocation the top-3 list is sorted
descending by `total_interest` — it starts sorted, every insertion preserves
sortedness (so it is sorted after every insertion, at every point of the
search), and the final returned list is sorted; moreover a candidate whose
`total_interest` ties an already-kept solution never displaces it (the kept
solution survives the insertion). -/
theorem claim_C5_top3_sorted_and_ties_kept :
    sortedDesc initial_top_solutions ∧
    (∀ (tops : List Solution) (cand : Solution),
      sortedDesc tops → sortedDesc (insertTop tops cand)) ∧
    (∀ (tops : List Solution) (cand t : Solution),
      sortedDesc tops → t ∈ tops → t.total_interest = cand.total_interest →
      t ∈ insertTop tops cand) ∧
    (∀ (total_amount : ℕ) (bd : String → BankInfo) (u : Requirements)
      (sols : List Solution),
      optimize_bank_distribution total_amount bd u = .ok sols → sortedDesc sols) := by
  have hinit : sortedDesc initial_top_solutions := by
    simp [sortedDesc, initial_top_solutions, List.pairwise_cons]
  refine ⟨hinit, fun tops cand h => insertTop_sorted h,
    fun tops cand t hs ht he => insertTop_tie hs ht he,
    fun total_amount bd u sols h => ?_⟩
  exact optimize_pres sortedDesc (fun _ => True)
    (fun tops cand hQ _ _ => insertTop_sorted hQ)
    (fun _ _ _ _ _ _ _ => trivial) hinit trivial h

/-- Witness for C5 at concrete inputs: the example run's returned list is
sorted, an insertion into it stays sorted, a tying kept solution survives an
insertion, and the concrete optimizer output is certified sorted. -/
theorem claim_C5_witness :
    sortedDesc (insertTop egTops (egTops.getD 1 emptySolution)) ∧
    egTops.getD 2 emptySolution ∈ insertTop egTops (egTops.getD 1 emptySolution) ∧
    sortedDesc egTops :=
  ⟨claim_C5_top3_sorted_and_ties_kept.2.1 egTops (egTops.getD 1 emptySolution)
      (by unfold sortedDesc; decide),
   claim_C5_top3_sorted_and_ties_kept.2.2.1 egTops (egTops.getD 1 emptySolution)
      (egTops.getD 2 emptySolution)
      (by unfold sortedDesc; decide) (by decide) (by decide),
   claim_C5_top3_sorted_and_ties_kept.2.2.2 5000 egBanks zeroReqs egTops (by decide)⟩

lemma insertTop_all (P : Solution → Prop) {tops : List Solution} {cand : Solution}
    (hall : ∀ s ∈ tops, P s) (hc : P cand) :
    ∀ s ∈ insertTop tops cand, P s := by
  intro s hs
  rcases insertTop_cases hs with h | ⟨rfl, -⟩
  · exact hall s h
  · exact hc

/-- Claim C6: for every Solution returned by the optimizer, re-running the
calculator over the recorded distribution — rebuilding each per-product
requirements copy from the recorded salary assignment exactly as the search
does — and summing reproduces the recorded `total_interest` (and breakdown)
exactly. -/
theorem claim_C6_round_trip
    (total_amount : ℕ) (bd : String → BankInfo) (u : Requirements)
    (sols : List Solution) (s : Solution)
    (h1 : optimize_bank_distribution total_amount bd u = .ok sols)
    (h2 : s ∈ sols) :
    evalDistribution bd u s.salary_bank s.distribution =
      .ok (s.total_interest, s.breakdown) := by
  refine optimize_pres
    (fun tops => ∀ t ∈ tops, evalDistribution bd u t.salary_bank t.distribution =
      .ok (t.total_interest, t.breakdown))
    (fun _ => True)
    (fun tops cand hQ _ hc => insertTop_all _ hQ hc.2)
    (fun _ _ _ _ _ _ _ => trivial)
    ?_ trivial h1 s h2
  intro t ht
  rcases List.mem_cons.mp ht with rfl | ht2
  · rfl
  · rcases List.mem_cons.mp ht2 with rfl | ht3
    · rfl
    · rcases List.mem_cons.mp ht3 with rfl | ht4
      · rfl
      · cases ht4

/-- Witness for C6 at a concrete input: the best solution of the example
run round-trips to its recorded interest and breakdown. -/
theorem claim_C6_witness :
    optimize_bank_distribution 5000 egBanks zeroReqs = .ok egTops ∧
    egBest ∈ egTops ∧
    evalDistribution egBanks zeroReqs egBest.salary_bank egBest.distribution =
      .ok (egBest.total_interest, egBest.breakdown) :=
  ⟨by decide, by decide,
   claim_C6_round_trip 5000 egBanks zeroReqs egTops egBest (by decide) (by decide)⟩

/-- Claim C10: in every Solution the optimizer returns, the distribution has
entries only for strictly positive allocations, and every recorded
allocation is a positive multiple of the $5,000 increment. -/
theorem claim_C10_distribution_positive_multiples
    (total_amount : ℕ) (bd : String → BankInfo) (u : Requirements)
    (sols : List Solution) (s : Solution) (p : String × ℕ)
    (h1 : optimize_bank_distribution total_amount bd u = .ok sols)
    (h2 : s ∈ sols) (h3 : p ∈ s.distribution) :
    0 < p.2 ∧ 5000 ∣ p.2 := by
  refine optimize_pres
    (fun tops => ∀ t ∈ tops, ∀ q ∈ t.distribution, 0 < q.2 ∧ 5000 ∣ q.2)
    (fun dist => ∀ q ∈ dist, 0 < q.2 ∧ 5000 ∣ q.2)
    (fun tops cand hQ hD _ => insertTop_all _ hQ hD)
    ?_ ?_ (fun q hq => absurd hq (List.not_mem_nil q)) h1 s h2 p h3
  · intro dist bank amt hD hpos hcap hdiv q hq
    rcases List.mem_append.mp hq with hq2 | hq2
    · exact hD q hq2
    · rcases List.mem_cons.mp hq2 with rfl | hq3
      · exact ⟨hpos, hdiv⟩
      · cases hq3
  · intro t ht
    rcases List.mem_cons.mp ht with rfl | ht2
    · intro q hq
      cases hq
    · rcases List.mem_cons.mp ht2 with rfl | ht3
      · intro q hq
        cases hq
      · rcases List.mem_cons.mp ht3 with rfl | ht4
        · intro q hq
          cases hq
        · cases ht4

/-- Witness for C10 at a concrete input: the best solution of the example
run allocates $5,000 (a positive multiple of the increment) to Chocolate. -/
theorem claim_C10_witness :
    optimize_bank_distribution 5000 egBanks zeroReqs = .ok egTops ∧
    egBest ∈ egTops ∧
    ("Chocolate", 5000) ∈ egBest.distribution ∧
    0 < (("Chocolate", 5000) : String × ℕ).2 ∧ 5000 ∣ (("Chocolate", 5000) : String × ℕ).2 :=
  ⟨by decide, by decide, by decide,
   claim_C10_distribution_positive_multiples 5000 egBanks zeroReqs egTops egBest
     ("Chocolate", 5000) (by decide) (by decide) (by decide)⟩

/-- Counterexample for C3: with total amount $5,001 and an (intact) tier
table whose rates are all zero, no candidate ever beats the three
pre-initialized placeholder solutions, so the optimizer returns them — and a
returned Solution's allocation sum (0) differs from the target by
5001 > 5000, violating the claimed invariant. -/
theorem claim_C3_counterexample :
    optimize_bank_distribution 5001 zeroRateBanks zeroReqs = .ok initial_top_solutions ∧
    emptySolution ∈ initial_top_solutions ∧
    ((distSum emptySolution.distribution : ℤ) - (5001 : ℤ)).natAbs > 5000 :=
  ⟨by decide, by decide, by decide⟩

/-- Claim C3 as amended: the invariant holds for every returned Solution
with positive `total_interest` — i.e. every solution the search actually
found and inserted; the pre-initialized placeholder entries (zero interest,
empty distribution) that remain when fewer than three candidates beat zero
are exempt.  For such solutions the allocation sum is within one $5,000
increment of the target and every allocation is at most its bank's bonus
cap. -/
theorem claim_C3_amended_solution_invariants
    (total_amount : ℕ) (bd : String → BankInfo) (u : Requirements)
    (sols : List Solution) (s : Solution)
    (h1 : optimize_bank_distribution total_amount bd u = .ok sols)
    (h2 : s ∈ sols) (h3 : 0 < s.total_interest) :
    ((distSum s.distribution : ℤ) - (total_amount : ℤ)).natAbs ≤ 5000 ∧
    ∀ p ∈ s.distribution, p.2 ≤ bonus_caps p.1 := by
  have hmain := optimize_pres
    (fun tops => ∀ t ∈ tops, 0 ≤ t.total_interest ∧
      (0 < t.total_interest →
        ((distSum t.distribution : ℤ) - (total_amount : ℤ)).natAbs ≤ 5000 ∧
        ∀ p ∈ t.distribution, p.2 ≤ bonus_caps p.1))
    (fun dist => ∀ q ∈ dist, q.2 ≤ bonus_caps q.1)
    ?_ ?_ ?_ (fun q hq => absurd hq (List.not_mem_nil q)) h1 s h2
  · exact hmain.2 h3
  · intro tops cand hQ hD hcand t ht
    rcases insertTop_cases ht with ht2 | ⟨rfl, b, hb, hblt⟩
    · exact hQ t ht2
    · have hble := (hQ b hb).1
      exact ⟨le_of_lt (lt_of_le_of_lt hble hblt),
        fun _ => ⟨hcand.1, hD⟩⟩
  · intro dist bank amt hD hpos hcap hdiv q hq
    rcases List.mem_append.mp hq with hq2 | hq2
    · exact hD q hq2
    · rcases List.mem_cons.mp hq2 with rfl | hq3
      · exact hcap
      · cases hq3
  · intro t ht
    rcases List.mem_cons.mp ht with rfl | ht2
    · exact ⟨le_refl 0, fun hlt => absurd hlt (lt_irrefl 0)⟩
    · rcases List.mem_cons.mp ht2 with rfl | ht3
      · exact ⟨le_refl 0, fun hlt => absurd hlt (lt_irrefl 0)⟩
      · rcases List.mem_cons.mp ht3 with rfl | ht4
        · exact ⟨le_refl 0, fun hlt => absurd hlt (lt_irrefl 0)⟩
        · cases ht4

/-- Witness for the amended C3 at a concrete input: the example run's best
solution has positive interest, its allocation sum misses the target by 0,
and its Chocolate allocation respects Chocolate's $50,000 cap. -/
theorem claim_C3_amended_witness :
    optimize_bank_distribution 5000 egBanks zeroReqs = .ok egTops ∧
    egBest ∈ egTops ∧ 0 < egBest.total_interest ∧
    (((distSum egBest.distribution : ℤ) - (5000 : ℤ)).natAbs ≤ 5000 ∧
      ∀ p ∈ egBest.distribution, p.2 ≤ bonus_caps p.1) :=
  ⟨by decide, by decide, by decide,
   claim_C3_amended_solution_invariants 5000 egBanks zeroReqs egTops egBest
     (by decide) (by decide) (by decide)⟩

/-- Counterexample for C1: with SC BonusSaver's tier rows missing, a single
optimizer run on $5,001 aborts outright with the configuration fault
(`StopIteration`), returning no solutions at all — even though a sibling
product's calculation (Chocolate, same table) succeeds on its own.  The
fault is therefore not scoped to the one product's calculation call, and
the search does not continue with other combinations. -/
theorem claim_C1_counterexample :
    optimize_bank_distribution 5001 scBrokenBanks zeroReqs =
      .error CalcError.stopIteration ∧
    (calculate_bank_interest 5000 (scBrokenBanks "Chocolate")
        (branch_bank_reqs zeroReqs none "Chocolate")).toOption.map
      (fun r => r.total_interest) = some 165 :=
  ⟨by decide, by decide⟩

/-- Claim C1 as amended: a required tier_type missing from a product's table
(here: SC BonusSaver without a `salary` tier) makes that product's
`calculate_bank_interest` call raise `StopIteration`; the exception is not
caught per product — a combination evaluation that passes the tolerance
check propagates it unchanged, aborting the optimizer's whole search instead
of completing sibling products or other combinations. -/
theorem claim_C1_amended_config_fault_aborts_search :
    (∀ (info : BankInfo) (reqs : Requirements) (deposit : ℚ),
      info.bank = "SC BonusSaver" →
      info.tiers.find? (fun t => t.tier_type == "salary") = none →
      calculate_bank_interest deposit info reqs = .error CalcError.stopIteration) ∧
    (∀ (bd : String → BankInfo) (u : Requirements) (total_amount : ℕ)
      (dist : List (String × ℕ)) (sb : Option String) (tops : List Solution)
      (e : CalcError),
      ((distSum dist : ℤ) - (total_amount : ℤ)).natAbs ≤ 5000 →
      evalDistribution bd u sb dist = .error e →
      try_combination bd u total_amount dist sb tops = .error e) := by
  constructor
  · intro info reqs deposit hb hnone
    unfold calculate_bank_interest
    dsimp only
    rw [hb]
    have hsc : calcSCBonusSaver deposit info reqs = .error CalcError.stopIteration := by
      unfold calcSCBonusSaver pyNext
      rw [hnone]
    simp [hsc]
  · intro bd u total_amount dist sb tops e htol heval
    unfold try_combination
    rw [if_neg (by omega), heval]

/-- Witness for the amended C1 at concrete inputs. -/
theorem claim_C1_amended_witness :
    calculate_bank_interest 1000 ⟨"SC BonusSaver", []⟩ zeroReqs =
      .error CalcError.stopIteration ∧
    try_combination scBrokenBanks zeroReqs 5000 [("SC BonusSaver", 5000)] none
      initial_top_solutions = .error CalcError.stopIteration :=
  ⟨claim_C1_amended_config_fault_aborts_search.1 ⟨"SC BonusSaver", []⟩ zeroReqs 1000
     rfl rfl,
   claim_C1_amended_config_fault_aborts_search.2 scBrokenBanks zeroReqs 5000
     [("SC BonusSaver", 5000)] none initial_top_solutions CalcError.stopIteration
     (by decide) (by decide)⟩

lemma spendLeaf_pres {bd : String → BankInfo} {dep : List (String × ℚ)}
    {base : Requirements} {alloc : List (String × ℚ)} {st st2 : SpendState}
    (halloc : ∀ p ∈ alloc, spendEntryShape dep p)
    (hst : ∀ p ∈ st.best_allocation, spendEntryShape dep p)
    (h : spendLeaf bd dep base alloc st = .ok st2) :
    ∀ p ∈ st2.best_allocation, spendEntryShape dep p := by
  unfold spendLeaf at h
  split at h
  · cases h
  · split at h
    · cases h
      exact halloc
    · cases h
      exact hst

lemma try_allocation_pres {bd : String → BankInfo} {dep : List (String × ℚ)}
    {base : Requirements} :
    ∀ (banks : List String) (rem : ℚ) (alloc : List (String × ℚ))
      (st st2 : SpendState),
      (∀ b ∈ banks, eligibleDeposit dep b) →
      (∀ p ∈ alloc, spendEntryShape dep p) →
      (∀ p ∈ st.best_allocation, spendEntryShape dep p) →
      try_allocation bd dep base banks rem alloc st = .ok st2 →
      ∀ p ∈ st2.best_allocation, spendEntryShape dep p := by
  intro banks
  induction banks with
  | nil =>
    intro rem alloc st st2 helig halloc hst h
    exact spendLeaf_pres halloc hst h
  | cons bank rest ih =>
    intro rem alloc st st2 helig halloc hst h
    have heligb : eligibleDeposit dep bank := helig bank (List.mem_cons_self _ _)
    have heligrest : ∀ b ∈ rest, eligibleDeposit dep b :=
      fun b hb => helig b (List.mem_cons_of_mem _ hb)
    unfold try_allocation at h
    split at h
    · exact spendLeaf_pres halloc hst h
    · split at h
      · cases h
      · rename_i st1 h1
        have hst1 := ih rem alloc st st1 heligrest halloc hst h1
        split at h
        · split at h
          · cases h
          · rename_i stB h2
            have hminshape : ∀ p ∈ alloc ++ [(bank, min_spends bank)],
                spendEntryShape dep p := by
              intro p hp
              rcases List.mem_append.mp hp with hp2 | hp2
              · exact halloc p hp2
              · rcases List.mem_cons.mp hp2 with rfl | hp3
                · exact ⟨heligb, Or.inl rfl⟩
                · cases hp3
            have hstB := ih _ _ st1 stB heligrest hminshape hst1 h2
            split at h
            · rename_i hboc
              have hbockeq : bank = "BOC SmartSaver" := by
                have := (Bool.and_eq_true _ _).mp hboc
                exact eq_of_beq this.1
              refine ih _ _ stB st2 heligrest ?_ hstB h
              intro p hp
              rcases List.mem_append.mp hp with hp2 | hp2
              · exact halloc p hp2
              · rcases List.mem_cons.mp hp2 with rfl | hp3
                · exact ⟨heligb, Or.inr ⟨hbockeq, rfl⟩⟩
                · cases hp3
            · cases h
              exact hstB
        · cases h
          exact hst1

/-- Claim C9: every allocation returned by the spend allocator assigns spend
only to banks with a strictly positive deposit allocation, at either the
bank's minimum qualifying spend or (for BOC SmartSaver alone) the elevated
$1,500 sub-tier; and the recursion bottoms out exactly when no eligible
banks remain or the remaining spend is below the smallest minimum. -/
theorem claim_C9_spend_allocation_shape_and_termination
    (total_spend : ℚ) (bd : String → BankInfo)
    (deposit_amounts : List (String × ℚ)) (base_reqs : Requirements)
    (st : SpendState)
    (h : optimize_spend_allocation total_spend bd deposit_amounts base_reqs = .ok st) :
    (∀ p ∈ st.best_allocation, spendEntryShape deposit_amounts p) ∧
    (∀ (rem : ℚ) (alloc : List (String × ℚ)) (st0 : SpendState),
      try_allocation bd deposit_amounts base_reqs [] rem alloc st0 =
        spendLeaf bd deposit_amounts base_reqs alloc st0) ∧
    (∀ (bank : String) (rest : List String) (rem : ℚ)
      (alloc : List (String × ℚ)) (st0 : SpendState),
      rem < smallest_min_spend →
      try_allocation bd deposit_amounts base_reqs (bank :: rest) rem alloc st0 =
        spendLeaf bd deposit_amounts base_reqs alloc st0) := by
  refine ⟨?_, fun rem alloc st0 => rfl, fun bank rest rem alloc st0 hrem => ?_⟩
  · unfold optimize_spend_allocation at h
    dsimp only at h
    refine try_allocation_pres _ total_spend [] _ st ?_
      (fun p hp => absurd hp (List.not_mem_nil p))
      (fun p hp => absurd hp (List.not_mem_nil p)) h
    intro b hb
    have hmem := List.mem_filter.mp hb
    unfold eligibleDeposit
    rcases hlk : lookupQ deposit_amounts b with - | d2
    · rw [hlk] at hmem
      simp at hmem
    · rw [hlk] at hmem
      simpa using hmem.2
  · unfold try_allocation
    rw [if_pos hrem]

/-- Witness for C9 at a concrete input: a $500 budget over a $10,000 UOB One
deposit allocates exactly UOB One's minimum qualifying spend to UOB One. -/
theorem claim_C9_witness :
    optimize_spend_allocation 500 spendBanks [("UOB One", 10000)] zeroReqs =
      .ok egSpendState ∧
    ("UOB One", (500 : ℚ)) ∈ egSpendState.best_allocation ∧
    spendEntryShape [("UOB One", (10000 : ℚ))] ("UOB One", (500 : ℚ)) :=
  ⟨by decide, by decide,
   (claim_C9_spend_allocation_shape_and_termination 500 spendBanks
       [("UOB One", 10000)] zeroReqs egSpendState (by decide)).1
     ("UOB One", 500) (by decide)⟩

/-- Witness for C8 at a concrete input: the placeholder solution returned by
the zero-amount run has zero interest and an empty distribution. -/
theorem claim_C8_witness :
    emptySolution.total_interest = 0 ∧ emptySolution.distribution = [] :=
  (claim_C8_zero_amount_returns_three_empty_solutions egBanks zeroReqs).2.2
    emptySolution (by decide)
